import Mathlib

/-!
Shallow embedding of the metric-reader threshold state machine
(`src/main.go`) and the leader-election callbacks
(`src/leader_election.go`).

Modelling conventions:
* `time.Time` values are natural numbers; the Go zero time (`IsZero`)
  is `0`, `now.Sub(t)` is integer subtraction, `now.Before(t)` is
  `now < t`, `now.After(t)` is `t < now`, `now.Add(d)` is `now + d`.
* `time.Duration` values are natural numbers; duration comparisons are
  performed over `Int` to match Go int64 arithmetic on `time.Sub`.
* metric values and thresholds are integers; the only float operations
  in the source are the strict comparisons of `isThresholdCrossed`.
* a plugin is modelled by its presence (`hasPlugin`); the outcome of
  `plugin.Execute` and of `IsLeader()` are oracle inputs supplied per
  tick (`TickEnv`), and every attempted `Execute` call is recorded in
  the returned list of `ActionCall`s with the value and elapsed
  duration the source passes.
-/

namespace MetricReader

/-- Comparison direction, `parseThresholdOperator` values. -/
inductive ThresholdOperator
  | greaterThan
  | lessThan
deriving DecidableEq, Repr

/-- `isThresholdCrossed` from src/main.go. -/
def isThresholdCrossed (op : ThresholdOperator) (value threshold : Int) : Bool :=
  match op with
  | .greaterThan => value > threshold
  | .lessThan => value < threshold

/-- `thresholdState` from src/main.go. -/
inductive ThresholdState
  | notBreached
  | softThresholdActive
  | hardThresholdActive
deriving DecidableEq, Repr

/-- `stateData` from src/main.go: phase plus the four timestamps
(zero = absent). -/
structure StateData where
  currentState : ThresholdState
  softThresholdStartTime : Nat
  hardThresholdStartTime : Nat
  softBackoffUntil : Nat
  hardBackoffUntil : Nat
deriving DecidableEq, Repr

/-- One configured tier (`threshold` in src/main.go): trigger value and
whether an action plugin is attached. -/
structure Threshold where
  value : Int
  hasPlugin : Bool
deriving DecidableEq, Repr

/-- `thresholdConfig` from src/main.go. -/
structure ThresholdConfig where
  operator : ThresholdOperator
  softThreshold : Option Threshold
  hardThreshold : Option Threshold
deriving DecidableEq, Repr

/-- The duration/backoff parameters `main` passes alongside the
threshold configuration. -/
structure RunConfig where
  cfg : ThresholdConfig
  softDuration : Nat
  softBackoffDelay : Nat
  hardDuration : Nat
  hardBackoffDelay : Nat
deriving DecidableEq, Repr

/-- Which tier an action invocation belongs to. -/
inductive Tier
  | soft
  | hard
deriving DecidableEq, Repr

/-- One attempted `plugin.Execute` call: tier, the value argument and
the elapsed-duration argument the source passes. -/
structure ActionCall where
  tier : Tier
  value : Int
  elapsed : Int
deriving DecidableEq, Repr

/-- Per-tick oracle inputs: the wall clock, the result of `IsLeader()`,
and the success of a soft / hard `plugin.Execute` call if one is made. -/
structure TickEnv where
  now : Nat
  leader : Bool
  softExecOk : Bool
  hardExecOk : Bool
deriving DecidableEq, Repr

/-- `softCrossed` as computed at the top of
`processThresholdStateMachine` (false when the tier is absent). -/
def softCrossedOf (cfg : ThresholdConfig) (value : Int) : Bool :=
  match cfg.softThreshold with
  | some t => isThresholdCrossed cfg.operator value t.value
  | none => false

/-- `hardCrossed` as computed at the top of
`processThresholdStateMachine` (false when the tier is absent). -/
def hardCrossedOf (cfg : ThresholdConfig) (value : Int) : Bool :=
  match cfg.hardThreshold with
  | some t => isThresholdCrossed cfg.operator value t.value
  | none => false

/-- `t.plugin != nil` for an optional tier. -/
def hasPluginOf : Option Threshold → Bool
  | some t => t.hasPlugin
  | none => false

/-- Lines 180-209 of src/main.go: after the phase has been set to
`SoftThresholdActive`, execute the soft plugin if present and leader;
on success with a positive backoff delay, arm the soft backoff. -/
def softFireBlock (rc : RunConfig) (s : StateData) (value : Int) (env : TickEnv) :
    StateData × List ActionCall :=
  if hasPluginOf rc.cfg.softThreshold ∧ env.leader then
    let call : ActionCall :=
      ⟨Tier.soft, value, (env.now : Int) - (s.softThresholdStartTime : Int)⟩
    if env.softExecOk then
      if 0 < rc.softBackoffDelay then
        ({ s with softBackoffUntil := env.now + rc.softBackoffDelay }, [call])
      else (s, [call])
    else (s, [call])
  else (s, [])

/-- Lines 268-297 of src/main.go: after the phase has been set to
`HardThresholdActive`, execute the hard plugin if present and leader;
on success with a positive backoff delay, arm the hard backoff. -/
def hardFireBlock (rc : RunConfig) (s : StateData) (value : Int) (env : TickEnv) :
    StateData × List ActionCall :=
  if hasPluginOf rc.cfg.hardThreshold ∧ env.leader then
    let call : ActionCall :=
      ⟨Tier.hard, value, (env.now : Int) - (s.hardThresholdStartTime : Int)⟩
    if env.hardExecOk then
      if 0 < rc.hardBackoffDelay then
        ({ s with hardBackoffUntil := env.now + rc.hardBackoffDelay }, [call])
      else (s, [call])
    else (s, [call])
  else (s, [])

/-- Lines 307-344 of src/main.go: in `SoftThresholdActive`, re-execute
the soft plugin once the armed soft backoff has expired (a zero i.e.
never-armed backoff never triggers re-execution). -/
def softReexecBlock (rc : RunConfig) (s : StateData) (value : Int) (env : TickEnv) :
    StateData × List ActionCall :=
  if softCrossedOf rc.cfg value ∧ rc.cfg.softThreshold.isSome then
    if s.softBackoffUntil ≠ 0 ∧ s.softBackoffUntil < env.now then
      if hasPluginOf rc.cfg.softThreshold ∧ env.leader then
        let call : ActionCall := ⟨Tier.soft, value, 0⟩
        if env.softExecOk then
          if 0 < rc.softBackoffDelay then
            ({ s with softBackoffUntil := env.now + rc.softBackoffDelay }, [call])
          else (s, [call])
        else (s, [call])
      else (s, [])
    else (s, [])
  else (s, [])

/-- Lines 378-415 of src/main.go: in `HardThresholdActive`, re-execute
the hard plugin once the armed hard backoff has expired. -/
def hardReexecBlock (rc : RunConfig) (s : StateData) (value : Int) (env : TickEnv) :
    StateData × List ActionCall :=
  if hardCrossedOf rc.cfg value ∧ rc.cfg.hardThreshold.isSome then
    if s.hardBackoffUntil ≠ 0 ∧ s.hardBackoffUntil < env.now then
      if hasPluginOf rc.cfg.hardThreshold ∧ env.leader then
        let call : ActionCall := ⟨Tier.hard, value, 0⟩
        if env.hardExecOk then
          if 0 < rc.hardBackoffDelay then
            ({ s with hardBackoffUntil := env.now + rc.hardBackoffDelay }, [call])
          else (s, [call])
        else (s, [call])
      else (s, [])
    else (s, [])
  else (s, [])

/-- Lines 146-217 of src/main.go: the `stateNotBreached` case. -/
def notBreachedStep (rc : RunConfig) (state : StateData) (value : Int) (env : TickEnv) :
    StateData × List ActionCall :=
  if softCrossedOf rc.cfg value ∧ rc.cfg.softThreshold.isSome then
    if state.softBackoffUntil ≠ 0 ∧ env.now < state.softBackoffUntil then
      (state, [])
    else if state.softThresholdStartTime = 0 then
      ({ state with softThresholdStartTime := env.now }, [])
    else if (rc.softDuration : Int) ≤ (env.now : Int) - (state.softThresholdStartTime : Int) then
      softFireBlock rc { state with currentState := .softThresholdActive } value env
    else
      (state, [])
  else if ¬softCrossedOf rc.cfg value ∧ state.softThresholdStartTime ≠ 0 then
    ({ state with softThresholdStartTime := 0 }, [])
  else
    (state, [])

/-- Lines 219-344 of src/main.go: the `stateSoftThresholdActive` case.
The hard-tier backoff check returns early (skipping the soft re-execute
check); every other hard-tier path falls through to it. -/
def softActiveStep (rc : RunConfig) (state : StateData) (value : Int) (env : TickEnv) :
    StateData × List ActionCall :=
  if ¬softCrossedOf rc.cfg value then
    ({ state with currentState := .notBreached, softThresholdStartTime := 0 }, [])
  else if hardCrossedOf rc.cfg value ∧ rc.cfg.hardThreshold.isSome then
    if state.hardBackoffUntil ≠ 0 ∧ env.now < state.hardBackoffUntil then
      (state, [])
    else if state.hardThresholdStartTime = 0 then
      softReexecBlock rc { state with hardThresholdStartTime := env.now } value env
    else if (rc.hardDuration : Int) ≤ (env.now : Int) - (state.hardThresholdStartTime : Int) then
      let r1 := hardFireBlock rc { state with currentState := .hardThresholdActive } value env
      let r2 := softReexecBlock rc r1.1 value env
      (r2.1, r1.2 ++ r2.2)
    else
      softReexecBlock rc state value env
  else if ¬hardCrossedOf rc.cfg value ∧ state.hardThresholdStartTime ≠ 0 then
    softReexecBlock rc { state with hardThresholdStartTime := 0 } value env
  else
    softReexecBlock rc state value env

/-- Lines 346-415 of src/main.go: the `stateHardThresholdActive` case.
Either clearing condition returns to `NotBreached` and clears both
start timers; otherwise only the hard re-execute check runs. -/
def hardActiveStep (rc : RunConfig) (state : StateData) (value : Int) (env : TickEnv) :
    StateData × List ActionCall :=
  if ¬hardCrossedOf rc.cfg value ∧ ¬softCrossedOf rc.cfg value then
    ({ state with
        currentState := ThresholdState.notBreached
        softThresholdStartTime := 0
        hardThresholdStartTime := 0 }, [])
  else if ¬softCrossedOf rc.cfg value then
    ({ state with
        currentState := ThresholdState.notBreached
        softThresholdStartTime := 0
        hardThresholdStartTime := 0 }, [])
  else
    hardReexecBlock rc state value env

/-- `processThresholdStateMachine` from src/main.go (lines 112-417). -/
def processThresholdStateMachine (rc : RunConfig) (state : StateData) (value : Int)
    (env : TickEnv) : StateData × List ActionCall :=
  match state.currentState with
  | .notBreached => notBreachedStep rc state value env
  | .softThresholdActive => softActiveStep rc state value env
  | .hardThresholdActive => hardActiveStep rc state value env

/-- Lines 677-717 of src/main.go: the `assume_breached` soft block.
Runs only when the phase is `NotBreached` and a soft tier is
configured; outside a pending soft backoff it records the start time,
promotes the phase to `SoftThresholdActive` and executes the soft
plugin (value 0, elapsed 0) if present and leader. -/
def assumeSoftBlock (rc : RunConfig) (state : StateData) (env : TickEnv) :
    StateData × List ActionCall :=
  if state.currentState = .notBreached ∧ rc.cfg.softThreshold.isSome then
    if state.softBackoffUntil = 0 ∨ state.softBackoffUntil < env.now then
      let s1 := { state with
                    softThresholdStartTime := env.now
                    currentState := ThresholdState.softThresholdActive }
      if hasPluginOf rc.cfg.softThreshold ∧ env.leader then
        if env.softExecOk ∧ 0 < rc.softBackoffDelay then
          ({ s1 with softBackoffUntil := env.now + rc.softBackoffDelay },
            [⟨Tier.soft, 0, 0⟩])
        else (s1, [⟨Tier.soft, 0, 0⟩])
      else (s1, [])
    else (state, [])
  else (state, [])

/-- Lines 719-758 of src/main.go: the `assume_breached` hard block.
Runs only when the phase (as left by the soft block of the same tick)
is `SoftThresholdActive` and a hard tier is configured. -/
def assumeHardBlock (rc : RunConfig) (state : StateData) (env : TickEnv) :
    StateData × List ActionCall :=
  if state.currentState = .softThresholdActive ∧ rc.cfg.hardThreshold.isSome then
    if state.hardBackoffUntil = 0 ∨ state.hardBackoffUntil < env.now then
      let s1 := { state with
                    hardThresholdStartTime := env.now
                    currentState := ThresholdState.hardThresholdActive }
      if hasPluginOf rc.cfg.hardThreshold ∧ env.leader then
        if env.hardExecOk ∧ 0 < rc.hardBackoffDelay then
          ({ s1 with hardBackoffUntil := env.now + rc.hardBackoffDelay },
            [⟨Tier.hard, 0, 0⟩])
        else (s1, [⟨Tier.hard, 0, 0⟩])
      else (s1, [])
    else (state, [])
  else (state, [])

/-- Lines 666-762 of src/main.go: the `assume_breached` handling of a
missing-data tick. The hard block observes the state already mutated
by the soft block of the same tick. -/
def assumeBreachedStep (rc : RunConfig) (state : StateData) (env : TickEnv) :
    StateData × List ActionCall :=
  let r1 := assumeSoftBlock rc state env
  let r2 := assumeHardBlock rc r1.1 env
  (r2.1, r1.2 ++ r2.2)

/-- What one polling tick feeds the state machine: either an evaluated
value, or missing data handled by the `assume_breached` branch. -/
inductive TickKind
  | value (v : Int)
  | missing
deriving DecidableEq, Repr

/-- One polling tick: oracle inputs plus the kind of sample. -/
structure Tick where
  env : TickEnv
  kind : TickKind
deriving DecidableEq, Repr

/-- Dispatch of one tick, as the polling loop in `main` does. -/
def runTick (rc : RunConfig) (state : StateData) (t : Tick) :
    StateData × List ActionCall :=
  match t.kind with
  | .value v => processThresholdStateMachine rc state v t.env
  | .missing => assumeBreachedStep rc state t.env

/-- Iterated ticks, collecting every attempted action invocation. -/
def runTrace (rc : RunConfig) (state : StateData) : List Tick → StateData × List ActionCall
  | [] => (state, [])
  | t :: ts =>
      let r1 := runTick rc state t
      let r2 := runTrace rc r1.1 ts
      (r2.1, r1.2 ++ r2.2)

/-- The state `main` starts with: `NotBreached`, all timestamps zero. -/
def initState : StateData := ⟨.notBreached, 0, 0, 0, 0⟩

/-- Number of soft-tier action invocations in a call list. -/
def softCallCount (l : List ActionCall) : Nat :=
  (l.filter (fun c => c.tier == Tier.soft)).length

/-- Number of hard-tier action invocations in a call list. -/
def hardCallCount (l : List ActionCall) : Nat :=
  (l.filter (fun c => c.tier == Tier.hard)).length

/-- Leader-election lifecycle events delivered to the callbacks in
src/leader_election.go. -/
inductive LeaderEvent
  | startedLeading
  | stoppedLeading
  | newLeader (id : String)
deriving DecidableEq, Repr

/-- Effect of one callback: the new value of the `leaderActive` flag
and, when the callback calls `os.Exit`, the process exit status. -/
structure CallbackEffect where
  leaderActive : Bool
  exitCode : Option Nat
deriving DecidableEq, Repr

/-- The `LeaderCallbacks` of src/leader_election.go (lines 93-109):
`OnStartedLeading` stores true; `OnStoppedLeading` stores false and
exits with status 1; `OnNewLeader` stores false when the observed
leader is not this host. -/
def onLeaderEvent (hostname : String) (current : Bool) : LeaderEvent → CallbackEffect
  | .startedLeading => ⟨true, none⟩
  | .stoppedLeading => ⟨false, some 1⟩
  | .newLeader id => ⟨if id ≠ hostname then false else current, none⟩

/-! ### Characterisation lemmas for the plugin-execution blocks -/

theorem softFireBlock_fst (rc : RunConfig) (s : StateData) (v : Int) (env : TickEnv) :
    (softFireBlock rc s v env).1 = s ∨
    (softFireBlock rc s v env).1 = { s with softBackoffUntil := env.now + rc.softBackoffDelay } := by
  unfold softFireBlock
  split_ifs <;> simp

theorem hardFireBlock_fst (rc : RunConfig) (s : StateData) (v : Int) (env : TickEnv) :
    (hardFireBlock rc s v env).1 = s ∨
    (hardFireBlock rc s v env).1 = { s with hardBackoffUntil := env.now + rc.hardBackoffDelay } := by
  unfold hardFireBlock
  split_ifs <;> simp

theorem softReexecBlock_fst (rc : RunConfig) (s : StateData) (v : Int) (env : TickEnv) :
    (softReexecBlock rc s v env).1 = s ∨
    (softReexecBlock rc s v env).1 = { s with softBackoffUntil := env.now + rc.softBackoffDelay } := by
  unfold softReexecBlock
  split_ifs <;> simp

theorem hardReexecBlock_fst (rc : RunConfig) (s : StateData) (v : Int) (env : TickEnv) :
    (hardReexecBlock rc s v env).1 = s ∨
    (hardReexecBlock rc s v env).1 = { s with hardBackoffUntil := env.now + rc.hardBackoffDelay } := by
  unfold hardReexecBlock
  split_ifs <;> simp

@[simp] theorem softFireBlock_currentState (rc : RunConfig) (s : StateData) (v : Int)
    (env : TickEnv) : (softFireBlock rc s v env).1.currentState = s.currentState := by
  rcases softFireBlock_fst rc s v env with h | h <;> rw [h]

@[simp] theorem hardFireBlock_currentState (rc : RunConfig) (s : StateData) (v : Int)
    (env : TickEnv) : (hardFireBlock rc s v env).1.currentState = s.currentState := by
  rcases hardFireBlock_fst rc s v env with h | h <;> rw [h]

@[simp] theorem softReexecBlock_currentState (rc : RunConfig) (s : StateData) (v : Int)
    (env : TickEnv) : (softReexecBlock rc s v env).1.currentState = s.currentState := by
  rcases softReexecBlock_fst rc s v env with h | h <;> rw [h]

@[simp] theorem hardReexecBlock_currentState (rc : RunConfig) (s : StateData) (v : Int)
    (env : TickEnv) : (hardReexecBlock rc s v env).1.currentState = s.currentState := by
  rcases hardReexecBlock_fst rc s v env with h | h <;> rw [h]

@[simp] theorem softFireBlock_softStart (rc : RunConfig) (s : StateData) (v : Int)
    (env : TickEnv) :
    (softFireBlock rc s v env).1.softThresholdStartTime = s.softThresholdStartTime := by
  rcases softFireBlock_fst rc s v env with h | h <;> rw [h]

@[simp] theorem hardFireBlock_softStart (rc : RunConfig) (s : StateData) (v : Int)
    (env : TickEnv) :
    (hardFireBlock rc s v env).1.softThresholdStartTime = s.softThresholdStartTime := by
  rcases hardFireBlock_fst rc s v env with h | h <;> rw [h]

@[simp] theorem softReexecBlock_softStart (rc : RunConfig) (s : StateData) (v : Int)
    (env : TickEnv) :
    (softReexecBlock rc s v env).1.softThresholdStartTime = s.softThresholdStartTime := by
  rcases softReexecBlock_fst rc s v env with h | h <;> rw [h]

@[simp] theorem hardReexecBlock_softStart (rc : RunConfig) (s : StateData) (v : Int)
    (env : TickEnv) :
    (hardReexecBlock rc s v env).1.softThresholdStartTime = s.softThresholdStartTime := by
  rcases hardReexecBlock_fst rc s v env with h | h <;> rw [h]

@[simp] theorem softFireBlock_hardStart (rc : RunConfig) (s : StateData) (v : Int)
    (env : TickEnv) :
    (softFireBlock rc s v env).1.hardThresholdStartTime = s.hardThresholdStartTime := by
  rcases softFireBlock_fst rc s v env with h | h <;> rw [h]

@[simp] theorem hardFireBlock_hardStart (rc : RunConfig) (s : StateData) (v : Int)
    (env : TickEnv) :
    (hardFireBlock rc s v env).1.hardThresholdStartTime = s.hardThresholdStartTime := by
  rcases hardFireBlock_fst rc s v env with h | h <;> rw [h]

@[simp] theorem softReexecBlock_hardStart (rc : RunConfig) (s : StateData) (v : Int)
    (env : TickEnv) :
    (softReexecBlock rc s v env).1.hardThresholdStartTime = s.hardThresholdStartTime := by
  rcases softReexecBlock_fst rc s v env with h | h <;> rw [h]

@[simp] theorem hardReexecBlock_hardStart (rc : RunConfig) (s : StateData) (v : Int)
    (env : TickEnv) :
    (hardReexecBlock rc s v env).1.hardThresholdStartTime = s.hardThresholdStartTime := by
  rcases hardReexecBlock_fst rc s v env with h | h <;> rw [h]

@[simp] theorem softFireBlock_hardBackoff (rc : RunConfig) (s : StateData) (v : Int)
    (env : TickEnv) :
    (softFireBlock rc s v env).1.hardBackoffUntil = s.hardBackoffUntil := by
  rcases softFireBlock_fst rc s v env with h | h <;> rw [h]

@[simp] theorem softReexecBlock_hardBackoff (rc : RunConfig) (s : StateData) (v : Int)
    (env : TickEnv) :
    (softReexecBlock rc s v env).1.hardBackoffUntil = s.hardBackoffUntil := by
  rcases softReexecBlock_fst rc s v env with h | h <;> rw [h]

@[simp] theorem hardFireBlock_softBackoff (rc : RunConfig) (s : StateData) (v : Int)
    (env : TickEnv) :
    (hardFireBlock rc s v env).1.softBackoffUntil = s.softBackoffUntil := by
  rcases hardFireBlock_fst rc s v env with h | h <;> rw [h]

@[simp] theorem hardReexecBlock_softBackoff (rc : RunConfig) (s : StateData) (v : Int)
    (env : TickEnv) :
    (hardReexecBlock rc s v env).1.softBackoffUntil = s.softBackoffUntil := by
  rcases hardReexecBlock_fst rc s v env with h | h <;> rw [h]

@[simp] theorem softFireBlock_hardCount (rc : RunConfig) (s : StateData) (v : Int)
    (env : TickEnv) : hardCallCount (softFireBlock rc s v env).2 = 0 := by
  unfold softFireBlock hardCallCount
  split_ifs <;> simp

@[simp] theorem softReexecBlock_hardCount (rc : RunConfig) (s : StateData) (v : Int)
    (env : TickEnv) : hardCallCount (softReexecBlock rc s v env).2 = 0 := by
  unfold softReexecBlock hardCallCount
  split_ifs <;> simp

@[simp] theorem hardFireBlock_softCount (rc : RunConfig) (s : StateData) (v : Int)
    (env : TickEnv) : softCallCount (hardFireBlock rc s v env).2 = 0 := by
  unfold hardFireBlock softCallCount
  split_ifs <;> simp

@[simp] theorem hardReexecBlock_softCount (rc : RunConfig) (s : StateData) (v : Int)
    (env : TickEnv) : softCallCount (hardReexecBlock rc s v env).2 = 0 := by
  unfold hardReexecBlock softCallCount
  split_ifs <;> simp

theorem softReexecBlock_no_backoff (rc : RunConfig) (s : StateData) (v : Int) (env : TickEnv)
    (h : s.softBackoffUntil = 0) : softReexecBlock rc s v env = (s, []) := by
  unfold softReexecBlock
  split_ifs <;> simp_all

theorem hardReexecBlock_no_backoff (rc : RunConfig) (s : StateData) (v : Int) (env : TickEnv)
    (h : s.hardBackoffUntil = 0) : hardReexecBlock rc s v env = (s, []) := by
  unfold hardReexecBlock
  split_ifs <;> simp_all

@[simp] theorem hardCallCount_nil : hardCallCount [] = 0 := rfl

@[simp] theorem softCallCount_nil : softCallCount [] = 0 := rfl

theorem runTick_soft_none (op : ThresholdOperator) (hardT : Option Threshold)
    (sd sbd hd hbd : Nat) (t : Tick) :
    runTick ⟨⟨op, none, hardT⟩, sd, sbd, hd, hbd⟩ initState t = (initState, []) := by
  obtain ⟨env, kind⟩ := t
  cases kind with
  | value v =>
      simp [runTick, processThresholdStateMachine, initState, notBreachedStep, softCrossedOf]
  | missing =>
      simp [runTick, assumeBreachedStep, assumeSoftBlock, assumeHardBlock, initState]

theorem runTrace_soft_none (op : ThresholdOperator) (hardT : Option Threshold)
    (sd sbd hd hbd : Nat) (ticks : List Tick) :
    runTrace ⟨⟨op, none, hardT⟩, sd, sbd, hd, hbd⟩ initState ticks = (initState, []) := by
  induction ticks with
  | nil => rfl
  | cons t ts ih => simp [runTrace, runTick_soft_none, ih]

/-- Claim C1: nesting invariant. (a) With no soft tier configured, any
sequence of ticks (evaluated or missing-data) from the initial state
leaves the state unchanged and fires no action, however extreme the
values. (b) A normal evaluated tick starting in `NotBreached` can
never end in `HardThresholdActive` and never invokes the hard action.
(c) A missing-data (`assume_breached`) tick starting in `NotBreached`
with no soft tier configured changes nothing and fires nothing.
(d) A missing-data tick starting in `NotBreached` reaches
`HardThresholdActive` only when both tiers are configured (it passes
through `SoftThresholdActive` within the tick). -/
theorem c1_nesting_invariant :
    (∀ (op : ThresholdOperator) (hardT : Option Threshold) (sd sbd hd hbd : Nat)
        (ticks : List Tick),
        runTrace ⟨⟨op, none, hardT⟩, sd, sbd, hd, hbd⟩ initState ticks = (initState, [])) ∧
    (∀ (rc : RunConfig) (s : StateData) (v : Int) (env : TickEnv),
        s.currentState = ThresholdState.notBreached →
        (processThresholdStateMachine rc s v env).1.currentState ≠
            ThresholdState.hardThresholdActive ∧
        hardCallCount (processThresholdStateMachine rc s v env).2 = 0) ∧
    (∀ (rc : RunConfig) (s : StateData) (env : TickEnv),
        s.currentState = ThresholdState.notBreached →
        rc.cfg.softThreshold = none →
        assumeBreachedStep rc s env = (s, [])) ∧
    (∀ (rc : RunConfig) (s : StateData) (env : TickEnv),
        s.currentState = ThresholdState.notBreached →
        (assumeBreachedStep rc s env).1.currentState = ThresholdState.hardThresholdActive →
        rc.cfg.softThreshold.isSome = true ∧ rc.cfg.hardThreshold.isSome = true) := by
  refine ⟨fun op hardT sd sbd hd hbd ticks => runTrace_soft_none op hardT sd sbd hd hbd ticks,
    fun rc s v env h => ?_, fun rc s env h hnone => ?_, fun rc s env h hres => ?_⟩
  · rw [processThresholdStateMachine, h]
    unfold notBreachedStep
    split_ifs <;> simp [h]
  · simp [assumeBreachedStep, assumeSoftBlock, assumeHardBlock, h, hnone]
  · revert hres
    simp only [assumeBreachedStep, assumeSoftBlock, assumeHardBlock]
    split_ifs <;> simp_all

/-- Claim C1 witness: the theorem applied at concrete inputs, with each
hypothesis discharged there. -/
theorem c1_nesting_invariant_witness :
    ((⟨ThresholdState.notBreached, 0, 0, 0, 0⟩ : StateData).currentState =
        ThresholdState.notBreached) ∧
    ((processThresholdStateMachine
        ⟨⟨ThresholdOperator.greaterThan, some ⟨10, true⟩, some ⟨20, true⟩⟩, 1, 0, 1, 0⟩
        ⟨ThresholdState.notBreached, 0, 0, 0, 0⟩ 100 ⟨5, true, true, true⟩).1.currentState ≠
        ThresholdState.hardThresholdActive) := by
  refine ⟨rfl, ?_⟩
  exact (c1_nesting_invariant.2.1
    ⟨⟨ThresholdOperator.greaterThan, some ⟨10, true⟩, some ⟨20, true⟩⟩, 1, 0, 1, 0⟩
    ⟨ThresholdState.notBreached, 0, 0, 0, 0⟩ 100 ⟨5, true, true, true⟩ rfl).1

/-- Claim C2 (code divergence): on the `SoftThresholdActive` to
`NotBreached` transition the source clears only the soft
violation-start timestamp; evaluated at a state whose hard
violation-start timestamp is 2 (armed on an earlier tick while the
hard tier was crossed), the returned state keeps
`hardThresholdStartTime = 2`, not zero as the spec's "clear all
timers" requires. -/
theorem c2_soft_exit_keeps_hard_timer :
    processThresholdStateMachine
        ⟨⟨ThresholdOperator.greaterThan, some ⟨10, false⟩, some ⟨20, false⟩⟩, 0, 0, 5, 0⟩
        ⟨ThresholdState.softThresholdActive, 1, 2, 0, 0⟩ 5 ⟨10, true, true, true⟩ =
      (⟨ThresholdState.notBreached, 0, 2, 0, 0⟩, []) ∧ (2 : Nat) ≠ 0 := by
  exact ⟨by decide, by decide⟩

/-- Claim C3 counterexample: a single missing-data tick under
`assume_breached`, from the initial state with both tiers configured
and no backoff armed, moves the phase from `NotBreached` all the way
to `HardThresholdActive` — the two sequential tier blocks chain within
one tick. -/
theorem c3_single_tick_reaches_hard :
    (assumeBreachedStep
        ⟨⟨ThresholdOperator.greaterThan, some ⟨10, false⟩, some ⟨20, false⟩⟩, 1, 0, 1, 0⟩
        initState ⟨1, false, true, true⟩).1.currentState =
      ThresholdState.hardThresholdActive := by
  decide

/-- Claim C3 (amended): under `assume_breached`, one missing-data tick
advances the state machine one step per tier block in sequence, and the
hard block observes the soft block's update; hence from `NotBreached`
with both tiers configured and neither backoff armed, a single
missing-data tick reaches `HardThresholdActive`. -/
theorem c3_assume_breached_chains (rc : RunConfig) (s : StateData) (env : TickEnv)
    (hsoft : rc.cfg.softThreshold.isSome = true)
    (hhard : rc.cfg.hardThreshold.isSome = true)
    (hphase : s.currentState = ThresholdState.notBreached)
    (hsb : s.softBackoffUntil = 0) (hhb : s.hardBackoffUntil = 0) :
    (assumeBreachedStep rc s env).1.currentState = ThresholdState.hardThresholdActive := by
  simp only [assumeBreachedStep, assumeSoftBlock, assumeHardBlock]
  split_ifs <;> simp_all

/-- Claim C3 witness for the amended theorem. -/
theorem c3_assume_breached_chains_witness :
    ((some (⟨10, false⟩ : Threshold)).isSome = true) ∧
    (assumeBreachedStep
        ⟨⟨ThresholdOperator.lessThan, some ⟨10, false⟩, some ⟨5, false⟩⟩, 3, 2, 3, 2⟩
        ⟨ThresholdState.notBreached, 0, 0, 0, 0⟩ ⟨7, true, true, true⟩).1.currentState =
      ThresholdState.hardThresholdActive := by
  refine ⟨rfl, ?_⟩
  exact c3_assume_breached_chains
    ⟨⟨ThresholdOperator.lessThan, some ⟨10, false⟩, some ⟨5, false⟩⟩, 3, 2, 3, 2⟩
    ⟨ThresholdState.notBreached, 0, 0, 0, 0⟩ ⟨7, true, true, true⟩ rfl rfl rfl rfl rfl

/-- Claim C8: the `OnStoppedLeading` callback sets the leadership fact
false and terminates the process with exit status 1 (non-zero); the
other two leadership callbacks never terminate the process. -/
theorem c8_fencing_on_lost_leadership :
    (∀ (hostname : String) (current : Bool),
        onLeaderEvent hostname current LeaderEvent.stoppedLeading = ⟨false, some 1⟩) ∧
    (∀ (hostname : String) (current : Bool),
        (onLeaderEvent hostname current LeaderEvent.startedLeading).exitCode = none) ∧
    (∀ (hostname id : String) (current : Bool),
        (onLeaderEvent hostname current (LeaderEvent.newLeader id)).exitCode = none) ∧
    (1 : Nat) ≠ 0 := by
  exact ⟨fun _ _ => rfl, fun _ _ => rfl, fun _ _ _ => rfl, by decide⟩

theorem step_core_env_independent (rc : RunConfig) (s : StateData) (v : Int)
    (now : Nat) (l1 a1 b1 l2 a2 b2 : Bool) :
    (processThresholdStateMachine rc s v ⟨now, l1, a1, b1⟩).1.currentState =
      (processThresholdStateMachine rc s v ⟨now, l2, a2, b2⟩).1.currentState ∧
    (processThresholdStateMachine rc s v ⟨now, l1, a1, b1⟩).1.softThresholdStartTime =
      (processThresholdStateMachine rc s v ⟨now, l2, a2, b2⟩).1.softThresholdStartTime ∧
    (processThresholdStateMachine rc s v ⟨now, l1, a1, b1⟩).1.hardThresholdStartTime =
      (processThresholdStateMachine rc s v ⟨now, l2, a2, b2⟩).1.hardThresholdStartTime := by
  cases hs : s.currentState
  · simp only [processThresholdStateMachine, hs]
    unfold notBreachedStep
    split_ifs <;> simp
  · simp only [processThresholdStateMachine, hs]
    unfold softActiveStep
    split_ifs <;> simp
  · simp only [processThresholdStateMachine, hs]
    unfold hardActiveStep
    split_ifs <;> simp

/-- Claim C4: the leadership flag (and likewise the success of an
action) never affects phase transitions or the violation-start
timestamps of a `processThresholdStateMachine` call — two calls on the
same state and inputs that differ only in the `IsLeader()` /
`Execute` oracles agree on phase and both start timestamps; and a
concrete four-tick run with the leader flag false throughout, crossing
both tiers past both sustain durations, still reaches
`HardThresholdActive` with zero action invocations. -/
theorem c4_leader_only_gates_actions :
    (∀ (rc : RunConfig) (s : StateData) (v : Int) (now : Nat) (l1 a1 b1 l2 a2 b2 : Bool),
        (processThresholdStateMachine rc s v ⟨now, l1, a1, b1⟩).1.currentState =
          (processThresholdStateMachine rc s v ⟨now, l2, a2, b2⟩).1.currentState ∧
        (processThresholdStateMachine rc s v ⟨now, l1, a1, b1⟩).1.softThresholdStartTime =
          (processThresholdStateMachine rc s v ⟨now, l2, a2, b2⟩).1.softThresholdStartTime ∧
        (processThresholdStateMachine rc s v ⟨now, l1, a1, b1⟩).1.hardThresholdStartTime =
          (processThresholdStateMachine rc s v ⟨now, l2, a2, b2⟩).1.hardThresholdStartTime) ∧
    runTrace ⟨⟨ThresholdOperator.greaterThan, some ⟨10, true⟩, some ⟨20, true⟩⟩, 1, 5, 1, 5⟩
        initState
        [⟨⟨1, false, true, true⟩, TickKind.value 25⟩, ⟨⟨2, false, true, true⟩, TickKind.value 25⟩,
         ⟨⟨3, false, true, true⟩, TickKind.value 25⟩, ⟨⟨4, false, true, true⟩, TickKind.value 25⟩] =
      (⟨ThresholdState.hardThresholdActive, 1, 3, 0, 0⟩, []) := by
  exact ⟨fun rc s v now l1 a1 b1 l2 a2 b2 =>
    step_core_env_independent rc s v now l1 a1 b1 l2 a2 b2, by decide⟩

/-- Claim C5 counterexample: a `NotBreached` to `SoftThresholdActive`
transition (soft crossed, timer running since 1, elapsed 4 at least
the duration 2, no backoff) leaves the soft violation-start timestamp
at 1 — it is not cleared to absent as the claim states. -/
theorem c5_transition_keeps_soft_timer :
    processThresholdStateMachine
        ⟨⟨ThresholdOperator.greaterThan, some ⟨10, true⟩, none⟩, 2, 0, 0, 0⟩
        ⟨ThresholdState.notBreached, 1, 0, 0, 0⟩ 25 ⟨5, true, true, true⟩ =
      (⟨ThresholdState.softThresholdActive, 1, 0, 0, 0⟩, [⟨Tier.soft, 25, 4⟩]) ∧
    (1 : Nat) ≠ 0 := by
  exact ⟨by decide, by decide⟩

/-- Claim C5 (amended): on the `NotBreached` to `SoftThresholdActive`
transition the soft action is invoked exactly when a plugin is
configured and the instance is leader, a successful invocation with a
positive backoff delay arms the soft cooldown, and the soft
violation-start timestamp is left unchanged (not cleared; it is cleared
only on a later return to `NotBreached`). -/
theorem c5_soft_transition (rc : RunConfig) (s : StateData) (v : Int) (env : TickEnv)
    (hphase : s.currentState = ThresholdState.notBreached)
    (hcross : softCrossedOf rc.cfg v = true)
    (hback : ¬(s.softBackoffUntil ≠ 0 ∧ env.now < s.softBackoffUntil))
    (htimer : s.softThresholdStartTime ≠ 0)
    (hdur : (rc.softDuration : Int) ≤ (env.now : Int) - (s.softThresholdStartTime : Int)) :
    (processThresholdStateMachine rc s v env).1.currentState =
        ThresholdState.softThresholdActive ∧
    (processThresholdStateMachine rc s v env).1.softThresholdStartTime =
        s.softThresholdStartTime ∧
    (processThresholdStateMachine rc s v env).1.hardThresholdStartTime =
        s.hardThresholdStartTime ∧
    ((processThresholdStateMachine rc s v env).2 =
      if hasPluginOf rc.cfg.softThreshold ∧ env.leader then
        [⟨Tier.soft, v, (env.now : Int) - (s.softThresholdStartTime : Int)⟩]
      else []) ∧
    ((processThresholdStateMachine rc s v env).1.softBackoffUntil =
      if hasPluginOf rc.cfg.softThreshold ∧ env.leader ∧ env.softExecOk ∧
          0 < rc.softBackoffDelay then
        env.now + rc.softBackoffDelay
      else s.softBackoffUntil) := by
  have hsome : rc.cfg.softThreshold.isSome = true := by
    cases hcfg : rc.cfg.softThreshold
    · rw [softCrossedOf, hcfg] at hcross
      exact absurd hcross (by simp)
    · simp
  simp only [processThresholdStateMachine, hphase]
  unfold notBreachedStep softFireBlock
  split_ifs <;> simp_all

/-- Claim C5 witness: the amended theorem at a concrete input, each
hypothesis discharged. -/
theorem c5_soft_transition_witness :
    ((⟨ThresholdState.notBreached, 1, 0, 0, 0⟩ : StateData).currentState =
        ThresholdState.notBreached) ∧
    (softCrossedOf ⟨ThresholdOperator.greaterThan, some ⟨10, true⟩, none⟩ 25 = true) ∧
    ((processThresholdStateMachine
        ⟨⟨ThresholdOperator.greaterThan, some ⟨10, true⟩, none⟩, 2, 3, 0, 0⟩
        ⟨ThresholdState.notBreached, 1, 0, 0, 0⟩ 25 ⟨5, true, true, true⟩).1.softThresholdStartTime =
      (⟨ThresholdState.notBreached, 1, 0, 0, 0⟩ : StateData).softThresholdStartTime) := by
  refine ⟨rfl, by decide, ?_⟩
  exact (c5_soft_transition
    ⟨⟨ThresholdOperator.greaterThan, some ⟨10, true⟩, none⟩, 2, 3, 0, 0⟩
    ⟨ThresholdState.notBreached, 1, 0, 0, 0⟩ 25 ⟨5, true, true, true⟩
    rfl (by decide) (by decide) (by decide) (by decide)).2.1

/-- Claim C6: in `NotBreached`, a tick on which the soft tier is not
violated while the soft violation-start timer is running resets that
timer to absent and changes nothing else — no action fires, the phase
stays `NotBreached`, and every other field is unchanged. -/
theorem c6_no_partial_credit (rc : RunConfig) (s : StateData) (v : Int) (env : TickEnv)
    (hphase : s.currentState = ThresholdState.notBreached)
    (hcross : softCrossedOf rc.cfg v = false)
    (htimer : s.softThresholdStartTime ≠ 0) :
    processThresholdStateMachine rc s v env = ({ s with softThresholdStartTime := 0 }, []) := by
  simp only [processThresholdStateMachine, hphase]
  unfold notBreachedStep
  split_ifs <;> simp_all

/-- Claim C6 witness: the theorem at a concrete input. -/
theorem c6_no_partial_credit_witness :
    ((⟨ThresholdState.notBreached, 3, 0, 0, 0⟩ : StateData).currentState =
        ThresholdState.notBreached) ∧
    (softCrossedOf ⟨ThresholdOperator.greaterThan, some ⟨10, false⟩, none⟩ 5 = false) ∧
    (processThresholdStateMachine
        ⟨⟨ThresholdOperator.greaterThan, some ⟨10, false⟩, none⟩, 2, 0, 0, 0⟩
        ⟨ThresholdState.notBreached, 3, 0, 0, 0⟩ 5 ⟨5, true, true, true⟩ =
      (⟨ThresholdState.notBreached, 0, 0, 0, 0⟩, [])) := by
  refine ⟨rfl, by decide, ?_⟩
  exact c6_no_partial_credit
    ⟨⟨ThresholdOperator.greaterThan, some ⟨10, false⟩, none⟩, 2, 0, 0, 0⟩
    ⟨ThresholdState.notBreached, 3, 0, 0, 0⟩ 5 ⟨5, true, true, true⟩
    rfl (by decide) (by decide)

theorem softFireBlock_softBackoff_char (rc : RunConfig) (s : StateData) (v : Int)
    (env : TickEnv) :
    (softFireBlock rc s v env).1.softBackoffUntil = s.softBackoffUntil ∨
    ((softFireBlock rc s v env).1.softBackoffUntil = env.now + rc.softBackoffDelay ∧
      env.softExecOk = true ∧ env.leader = true ∧ 0 < rc.softBackoffDelay) := by
  unfold softFireBlock
  split_ifs <;> simp_all

theorem hardFireBlock_hardBackoff_char (rc : RunConfig) (s : StateData) (v : Int)
    (env : TickEnv) :
    (hardFireBlock rc s v env).1.hardBackoffUntil = s.hardBackoffUntil ∨
    ((hardFireBlock rc s v env).1.hardBackoffUntil = env.now + rc.hardBackoffDelay ∧
      env.hardExecOk = true ∧ env.leader = true ∧ 0 < rc.hardBackoffDelay) := by
  unfold hardFireBlock
  split_ifs <;> simp_all

theorem softReexecBlock_softBackoff_char (rc : RunConfig) (s : StateData) (v : Int)
    (env : TickEnv) :
    (softReexecBlock rc s v env).1.softBackoffUntil = s.softBackoffUntil ∨
    ((softReexecBlock rc s v env).1.softBackoffUntil = env.now + rc.softBackoffDelay ∧
      env.softExecOk = true ∧ env.leader = true ∧ 0 < rc.softBackoffDelay) := by
  unfold softReexecBlock
  split_ifs <;> simp_all

theorem hardReexecBlock_hardBackoff_char (rc : RunConfig) (s : StateData) (v : Int)
    (env : TickEnv) :
    (hardReexecBlock rc s v env).1.hardBackoffUntil = s.hardBackoffUntil ∨
    ((hardReexecBlock rc s v env).1.hardBackoffUntil = env.now + rc.hardBackoffDelay ∧
      env.hardExecOk = true ∧ env.leader = true ∧ 0 < rc.hardBackoffDelay) := by
  unfold hardReexecBlock
  split_ifs <;> simp_all

theorem step_softBackoff_char (rc : RunConfig) (s : StateData) (v : Int) (env : TickEnv) :
    (processThresholdStateMachine rc s v env).1.softBackoffUntil = s.softBackoffUntil ∨
    ((processThresholdStateMachine rc s v env).1.softBackoffUntil =
        env.now + rc.softBackoffDelay ∧
      env.softExecOk = true ∧ env.leader = true ∧ 0 < rc.softBackoffDelay) := by
  cases hs : s.currentState
  · simp only [processThresholdStateMachine, hs]
    unfold notBreachedStep
    split_ifs <;> try simp
    rcases softFireBlock_softBackoff_char rc
        { s with currentState := ThresholdState.softThresholdActive } v env with h | h
    · left
      rw [h]
    · right
      simpa using h
  · simp only [processThresholdStateMachine, hs]
    unfold softActiveStep
    split_ifs <;> try simp
    all_goals {
      first
      | · rcases softReexecBlock_softBackoff_char rc
            (hardFireBlock rc { s with currentState := ThresholdState.hardThresholdActive } v
              env).1 v env with h | h
          · left
            rw [h]
            simp
          · right
            simpa using h
      | · rcases softReexecBlock_softBackoff_char rc
            { s with hardThresholdStartTime := env.now } v env with h | h
          · left
            rw [h]
          · right
            simpa using h
      | · rcases softReexecBlock_softBackoff_char rc
            { s with hardThresholdStartTime := 0 } v env with h | h
          · left
            rw [h]
          · right
            simpa using h
      | · rcases softReexecBlock_softBackoff_char rc s v env with h | h
          · left
            rw [h]
          · right
            simpa using h
    }
  · simp only [processThresholdStateMachine, hs]
    unfold hardActiveStep
    split_ifs <;> simp

theorem step_hardBackoff_char (rc : RunConfig) (s : StateData) (v : Int) (env : TickEnv) :
    (processThresholdStateMachine rc s v env).1.hardBackoffUntil = s.hardBackoffUntil ∨
    ((processThresholdStateMachine rc s v env).1.hardBackoffUntil =
        env.now + rc.hardBackoffDelay ∧
      env.hardExecOk = true ∧ env.leader = true ∧ 0 < rc.hardBackoffDelay) := by
  cases hs : s.currentState
  · simp only [processThresholdStateMachine, hs]
    unfold notBreachedStep
    split_ifs <;> simp
  · simp only [processThresholdStateMachine, hs]
    unfold softActiveStep
    split_ifs <;> try simp
    rcases hardFireBlock_hardBackoff_char rc
        { s with currentState := ThresholdState.hardThresholdActive } v env with h | h
    · left
      exact h
    · right
      exact h
  · simp only [processThresholdStateMachine, hs]
    unfold hardActiveStep
    split_ifs <;> try simp
    rcases hardReexecBlock_hardBackoff_char rc s v env with h | h
    · left
      rw [h]
    · right
      simpa using h

theorem assumeStep_softBackoff_char (rc : RunConfig) (s : StateData) (env : TickEnv) :
    (assumeBreachedStep rc s env).1.softBackoffUntil = s.softBackoffUntil ∨
    ((assumeBreachedStep rc s env).1.softBackoffUntil = env.now + rc.softBackoffDelay ∧
      env.softExecOk = true ∧ env.leader = true ∧ 0 < rc.softBackoffDelay) := by
  simp only [assumeBreachedStep, assumeSoftBlock, assumeHardBlock]
  split_ifs <;> simp_all

theorem assumeStep_hardBackoff_char (rc : RunConfig) (s : StateData) (env : TickEnv) :
    (assumeBreachedStep rc s env).1.hardBackoffUntil = s.hardBackoffUntil ∨
    ((assumeBreachedStep rc s env).1.hardBackoffUntil = env.now + rc.hardBackoffDelay ∧
      env.hardExecOk = true ∧ env.leader = true ∧ 0 < rc.hardBackoffDelay) := by
  simp only [assumeBreachedStep, assumeSoftBlock, assumeHardBlock]
  split_ifs <;> simp_all

/-- Claim C7: action failure never arms cooldown. A tick whose plugin
executions fail leaves both backoff-until timestamps unchanged (normal
and missing-data paths alike) while the phase is the same as in the
corresponding successful run (the transition stands); conversely any
change of a backoff-until timestamp means the corresponding action
succeeded while leader with a positive configured backoff delay, the
timestamp becoming now + delay. -/
theorem c7_failure_never_arms_cooldown :
    (∀ (rc : RunConfig) (s : StateData) (v : Int) (now : Nat) (l : Bool),
        (processThresholdStateMachine rc s v ⟨now, l, false, false⟩).1.softBackoffUntil =
          s.softBackoffUntil ∧
        (processThresholdStateMachine rc s v ⟨now, l, false, false⟩).1.hardBackoffUntil =
          s.hardBackoffUntil) ∧
    (∀ (rc : RunConfig) (s : StateData) (now : Nat) (l : Bool),
        (assumeBreachedStep rc s ⟨now, l, false, false⟩).1.softBackoffUntil =
          s.softBackoffUntil ∧
        (assumeBreachedStep rc s ⟨now, l, false, false⟩).1.hardBackoffUntil =
          s.hardBackoffUntil) ∧
    (∀ (rc : RunConfig) (s : StateData) (v : Int) (now : Nat) (l a b : Bool),
        (processThresholdStateMachine rc s v ⟨now, l, a, b⟩).1.currentState =
          (processThresholdStateMachine rc s v ⟨now, l, true, true⟩).1.currentState) ∧
    (∀ (rc : RunConfig) (s : StateData) (v : Int) (env : TickEnv),
        (processThresholdStateMachine rc s v env).1.softBackoffUntil ≠ s.softBackoffUntil →
          env.softExecOk = true ∧ env.leader = true ∧ 0 < rc.softBackoffDelay ∧
          (processThresholdStateMachine rc s v env).1.softBackoffUntil =
            env.now + rc.softBackoffDelay) ∧
    (∀ (rc : RunConfig) (s : StateData) (v : Int) (env : TickEnv),
        (processThresholdStateMachine rc s v env).1.hardBackoffUntil ≠ s.hardBackoffUntil →
          env.hardExecOk = true ∧ env.leader = true ∧ 0 < rc.hardBackoffDelay ∧
          (processThresholdStateMachine rc s v env).1.hardBackoffUntil =
            env.now + rc.hardBackoffDelay) ∧
    (∀ (rc : RunConfig) (s : StateData) (env : TickEnv),
        (assumeBreachedStep rc s env).1.softBackoffUntil ≠ s.softBackoffUntil →
          env.softExecOk = true ∧ env.leader = true ∧ 0 < rc.softBackoffDelay) ∧
    (∀ (rc : RunConfig) (s : StateData) (env : TickEnv),
        (assumeBreachedStep rc s env).1.hardBackoffUntil ≠ s.hardBackoffUntil →
          env.hardExecOk = true ∧ env.leader = true ∧ 0 < rc.hardBackoffDelay) := by
  refine ⟨fun rc s v now l => ⟨?_, ?_⟩, fun rc s now l => ⟨?_, ?_⟩,
    fun rc s v now l a b => (step_core_env_independent rc s v now l a b l true true).1,
    fun rc s v env hne => ?_, fun rc s v env hne => ?_,
    fun rc s env hne => ?_, fun rc s env hne => ?_⟩
  · rcases step_softBackoff_char rc s v ⟨now, l, false, false⟩ with h | h
    · exact h
    · exact absurd h.2.1 (by simp)
  · rcases step_hardBackoff_char rc s v ⟨now, l, false, false⟩ with h | h
    · exact h
    · exact absurd h.2.1 (by simp)
  · rcases assumeStep_softBackoff_char rc s ⟨now, l, false, false⟩ with h | h
    · exact h
    · exact absurd h.2.1 (by simp)
  · rcases assumeStep_hardBackoff_char rc s ⟨now, l, false, false⟩ with h | h
    · exact h
    · exact absurd h.2.1 (by simp)
  · rcases step_softBackoff_char rc s v env with h | h
    · exact absurd h hne
    · exact ⟨h.2.1, h.2.2.1, h.2.2.2, h.1⟩
  · rcases step_hardBackoff_char rc s v env with h | h
    · exact absurd h hne
    · exact ⟨h.2.1, h.2.2.1, h.2.2.2, h.1⟩
  · rcases assumeStep_softBackoff_char rc s env with h | h
    · exact absurd h hne
    · exact ⟨h.2.1, h.2.2.1, h.2.2.2⟩
  · rcases assumeStep_hardBackoff_char rc s env with h | h
    · exact absurd h hne
    · exact ⟨h.2.1, h.2.2.1, h.2.2.2⟩

/-- Claim C7 witness: the arming characterisation applied at a concrete
input where the soft cooldown was armed, the inequality hypothesis
discharged there. -/
theorem c7_failure_never_arms_cooldown_witness :
    ((processThresholdStateMachine
        ⟨⟨ThresholdOperator.greaterThan, some ⟨10, true⟩, none⟩, 1, 5, 0, 0⟩
        ⟨ThresholdState.notBreached, 1, 0, 0, 0⟩ 25 ⟨5, true, true, true⟩).1.softBackoffUntil ≠
      (⟨ThresholdState.notBreached, 1, 0, 0, 0⟩ : StateData).softBackoffUntil) ∧
    ((5 : Nat) + 5 = 10) ∧
    ((processThresholdStateMachine
        ⟨⟨ThresholdOperator.greaterThan, some ⟨10, true⟩, none⟩, 1, 5, 0, 0⟩
        ⟨ThresholdState.notBreached, 1, 0, 0, 0⟩ 25 ⟨5, true, true, true⟩).1.softBackoffUntil =
      (⟨5, true, true, true⟩ : TickEnv).now + 5) := by
  refine ⟨by decide, by decide, ?_⟩
  exact (c7_failure_never_arms_cooldown.2.2.2.1
    ⟨⟨ThresholdOperator.greaterThan, some ⟨10, true⟩, none⟩, 1, 5, 0, 0⟩
    ⟨ThresholdState.notBreached, 1, 0, 0, 0⟩ 25 ⟨5, true, true, true⟩ (by decide)).2.2.2

@[simp] theorem softCallCount_append (l1 l2 : List ActionCall) :
    softCallCount (l1 ++ l2) = softCallCount l1 + softCallCount l2 := by
  simp [softCallCount, List.filter_append]

@[simp] theorem hardCallCount_append (l1 l2 : List ActionCall) :
    hardCallCount (l1 ++ l2) = hardCallCount l1 + hardCallCount l2 := by
  simp [hardCallCount, List.filter_append]

/-- Claim C9: backoff timestamps are never cleared. Each tick (normal
or missing-data) either leaves a backoff-until timestamp unchanged or
sets it to now + delay for a positive configured delay; consequently a
non-zero backoff-until timestamp stays non-zero across any tick — in
particular across the transitions back to `NotBreached`, which touch
only the phase and the start timers; and while an armed soft cooldown
is unexpired, a violating tick in `NotBreached` is suppressed entirely
(state unchanged, no action, no timer started). -/
theorem c9_backoff_never_cleared :
    (∀ (rc : RunConfig) (s : StateData) (v : Int) (env : TickEnv),
        (processThresholdStateMachine rc s v env).1.softBackoffUntil = s.softBackoffUntil ∨
        ((processThresholdStateMachine rc s v env).1.softBackoffUntil =
            env.now + rc.softBackoffDelay ∧ 0 < rc.softBackoffDelay)) ∧
    (∀ (rc : RunConfig) (s : StateData) (v : Int) (env : TickEnv),
        (processThresholdStateMachine rc s v env).1.hardBackoffUntil = s.hardBackoffUntil ∨
        ((processThresholdStateMachine rc s v env).1.hardBackoffUntil =
            env.now + rc.hardBackoffDelay ∧ 0 < rc.hardBackoffDelay)) ∧
    (∀ (rc : RunConfig) (s : StateData) (env : TickEnv),
        (assumeBreachedStep rc s env).1.softBackoffUntil = s.softBackoffUntil ∨
        ((assumeBreachedStep rc s env).1.softBackoffUntil =
            env.now + rc.softBackoffDelay ∧ 0 < rc.softBackoffDelay)) ∧
    (∀ (rc : RunConfig) (s : StateData) (env : TickEnv),
        (assumeBreachedStep rc s env).1.hardBackoffUntil = s.hardBackoffUntil ∨
        ((assumeBreachedStep rc s env).1.hardBackoffUntil =
            env.now + rc.hardBackoffDelay ∧ 0 < rc.hardBackoffDelay)) ∧
    (∀ (rc : RunConfig) (s : StateData) (t : Tick),
        s.softBackoffUntil ≠ 0 → (runTick rc s t).1.softBackoffUntil ≠ 0) ∧
    (∀ (rc : RunConfig) (s : StateData) (t : Tick),
        s.hardBackoffUntil ≠ 0 → (runTick rc s t).1.hardBackoffUntil ≠ 0) ∧
    (∀ (rc : RunConfig) (s : StateData) (v : Int) (env : TickEnv),
        s.currentState = ThresholdState.notBreached →
        softCrossedOf rc.cfg v = true →
        s.softBackoffUntil ≠ 0 → env.now < s.softBackoffUntil →
        processThresholdStateMachine rc s v env = (s, [])) := by
  refine ⟨fun rc s v env => ?_, fun rc s v env => ?_, fun rc s env => ?_, fun rc s env => ?_,
    fun rc s t hne => ?_, fun rc s t hne => ?_,
    fun rc s v env hphase hcross hb hlt => ?_⟩
  · rcases step_softBackoff_char rc s v env with h | h
    · exact Or.inl h
    · exact Or.inr ⟨h.1, h.2.2.2⟩
  · rcases step_hardBackoff_char rc s v env with h | h
    · exact Or.inl h
    · exact Or.inr ⟨h.1, h.2.2.2⟩
  · rcases assumeStep_softBackoff_char rc s env with h | h
    · exact Or.inl h
    · exact Or.inr ⟨h.1, h.2.2.2⟩
  · rcases assumeStep_hardBackoff_char rc s env with h | h
    · exact Or.inl h
    · exact Or.inr ⟨h.1, h.2.2.2⟩
  · obtain ⟨env, kind⟩ := t
    cases kind with
    | value v =>
        rcases step_softBackoff_char rc s v env with h | h
        · rw [runTick]
          rw [h]
          exact hne
        · rw [runTick]
          rw [h.1]
          omega
    | missing =>
        rcases assumeStep_softBackoff_char rc s env with h | h
        · rw [runTick]
          rw [h]
          exact hne
        · rw [runTick]
          rw [h.1]
          omega
  · obtain ⟨env, kind⟩ := t
    cases kind with
    | value v =>
        rcases step_hardBackoff_char rc s v env with h | h
        · rw [runTick]
          rw [h]
          exact hne
        · rw [runTick]
          rw [h.1]
          omega
    | missing =>
        rcases assumeStep_hardBackoff_char rc s env with h | h
        · rw [runTick]
          rw [h]
          exact hne
        · rw [runTick]
          rw [h.1]
          omega
  · have hsome : rc.cfg.softThreshold.isSome = true := by
      cases hcfg : rc.cfg.softThreshold
      · rw [softCrossedOf, hcfg] at hcross
        exact absurd hcross (by simp)
      · simp
    simp only [processThresholdStateMachine, hphase]
    unfold notBreachedStep
    split_ifs <;> simp_all

/-- Claim C9 witness: persistence and suppression applied at concrete
inputs, each hypothesis discharged. -/
theorem c9_backoff_never_cleared_witness :
    ((⟨ThresholdState.softThresholdActive, 1, 0, 9, 0⟩ : StateData).softBackoffUntil ≠ 0) ∧
    ((runTick ⟨⟨ThresholdOperator.greaterThan, some ⟨10, true⟩, none⟩, 1, 5, 0, 0⟩
        ⟨ThresholdState.softThresholdActive, 1, 0, 9, 0⟩
        ⟨⟨3, true, true, true⟩, TickKind.value 5⟩).1.softBackoffUntil ≠ 0) ∧
    (processThresholdStateMachine
        ⟨⟨ThresholdOperator.greaterThan, some ⟨10, true⟩, none⟩, 1, 5, 0, 0⟩
        ⟨ThresholdState.notBreached, 0, 0, 9, 0⟩ 25 ⟨3, true, true, true⟩ =
      (⟨ThresholdState.notBreached, 0, 0, 9, 0⟩, [])) := by
  refine ⟨by decide, ?_, ?_⟩
  · exact c9_backoff_never_cleared.2.2.2.2.1
      ⟨⟨ThresholdOperator.greaterThan, some ⟨10, true⟩, none⟩, 1, 5, 0, 0⟩
      ⟨ThresholdState.softThresholdActive, 1, 0, 9, 0⟩
      ⟨⟨3, true, true, true⟩, TickKind.value 5⟩ (by decide)
  · exact c9_backoff_never_cleared.2.2.2.2.2.2
      ⟨⟨ThresholdOperator.greaterThan, some ⟨10, true⟩, none⟩, 1, 5, 0, 0⟩
      ⟨ThresholdState.notBreached, 0, 0, 9, 0⟩ 25 ⟨3, true, true, true⟩
      rfl (by decide) (by decide) (by decide)

theorem runTick_softBackoff_zero_delay (cfg : ThresholdConfig) (sd hd hbd : Nat)
    (s : StateData) (t : Tick) :
    (runTick ⟨cfg, sd, 0, hd, hbd⟩ s t).1.softBackoffUntil = s.softBackoffUntil := by
  obtain ⟨env, kind⟩ := t
  cases kind with
  | value v =>
      rcases step_softBackoff_char ⟨cfg, sd, 0, hd, hbd⟩ s v env with h | h
      · exact h
      · simpa using h.2.2.2
  | missing =>
      rcases assumeStep_softBackoff_char ⟨cfg, sd, 0, hd, hbd⟩ s env with h | h
      · exact h
      · simpa using h.2.2.2

theorem runTick_hardBackoff_zero_delay (cfg : ThresholdConfig) (sd sbd hd : Nat)
    (s : StateData) (t : Tick) :
    (runTick ⟨cfg, sd, sbd, hd, 0⟩ s t).1.hardBackoffUntil = s.hardBackoffUntil := by
  obtain ⟨env, kind⟩ := t
  cases kind with
  | value v =>
      rcases step_hardBackoff_char ⟨cfg, sd, sbd, hd, 0⟩ s v env with h | h
      · exact h
      · simpa using h.2.2.2
  | missing =>
      rcases assumeStep_hardBackoff_char ⟨cfg, sd, sbd, hd, 0⟩ s env with h | h
      · exact h
      · simpa using h.2.2.2

theorem runTrace_softBackoff_zero_delay (cfg : ThresholdConfig) (sd hd hbd : Nat)
    (s : StateData) (ticks : List Tick) :
    (runTrace ⟨cfg, sd, 0, hd, hbd⟩ s ticks).1.softBackoffUntil = s.softBackoffUntil := by
  induction ticks generalizing s with
  | nil => rfl
  | cons t ts ih =>
      rw [runTrace]
      exact (ih (runTick ⟨cfg, sd, 0, hd, hbd⟩ s t).1).trans
        (runTick_softBackoff_zero_delay cfg sd hd hbd s t)

theorem runTrace_hardBackoff_zero_delay (cfg : ThresholdConfig) (sd sbd hd : Nat)
    (s : StateData) (ticks : List Tick) :
    (runTrace ⟨cfg, sd, sbd, hd, 0⟩ s ticks).1.hardBackoffUntil = s.hardBackoffUntil := by
  induction ticks generalizing s with
  | nil => rfl
  | cons t ts ih =>
      rw [runTrace]
      exact (ih (runTick ⟨cfg, sd, sbd, hd, 0⟩ s t).1).trans
        (runTick_hardBackoff_zero_delay cfg sd sbd hd s t)

theorem assumeSoftBlock_skip (rc : RunConfig) (s : StateData) (env : TickEnv)
    (h : s.currentState ≠ ThresholdState.notBreached) :
    assumeSoftBlock rc s env = (s, []) := by
  unfold assumeSoftBlock
  split_ifs <;> simp_all

theorem assumeHardBlock_skip (rc : RunConfig) (s : StateData) (env : TickEnv)
    (h : s.currentState ≠ ThresholdState.softThresholdActive) :
    assumeHardBlock rc s env = (s, []) := by
  unfold assumeHardBlock
  split_ifs <;> simp_all

@[simp] theorem assumeHardBlock_softCount (rc : RunConfig) (s : StateData) (env : TickEnv) :
    softCallCount (assumeHardBlock rc s env).2 = 0 := by
  unfold assumeHardBlock softCallCount
  split_ifs <;> simp

@[simp] theorem assumeSoftBlock_hardCount (rc : RunConfig) (s : StateData) (env : TickEnv) :
    hardCallCount (assumeSoftBlock rc s env).2 = 0 := by
  unfold assumeSoftBlock hardCallCount
  split_ifs <;> simp

set_option maxHeartbeats 1000000 in
/-- Claim C10: with a zero backoff delay a tier's action fires at most
once per violation episode. A zero soft (hard) backoff delay means no
tick ever changes the soft (hard) backoff-until timestamp, also along
whole traces; and while the machine sits in `SoftThresholdActive` with
the soft backoff-until timestamp zero (never armed), no tick — normal
or missing-data — invokes the soft action; analogously for the hard
tier in `HardThresholdActive`. -/
theorem c10_zero_delay_single_fire :
    (∀ (cfg : ThresholdConfig) (sd hd hbd : Nat) (s : StateData) (t : Tick),
        (runTick ⟨cfg, sd, 0, hd, hbd⟩ s t).1.softBackoffUntil = s.softBackoffUntil) ∧
    (∀ (cfg : ThresholdConfig) (sd sbd hd : Nat) (s : StateData) (t : Tick),
        (runTick ⟨cfg, sd, sbd, hd, 0⟩ s t).1.hardBackoffUntil = s.hardBackoffUntil) ∧
    (∀ (cfg : ThresholdConfig) (sd hd hbd : Nat) (s : StateData) (ticks : List Tick),
        (runTrace ⟨cfg, sd, 0, hd, hbd⟩ s ticks).1.softBackoffUntil = s.softBackoffUntil) ∧
    (∀ (cfg : ThresholdConfig) (sd sbd hd : Nat) (s : StateData) (ticks : List Tick),
        (runTrace ⟨cfg, sd, sbd, hd, 0⟩ s ticks).1.hardBackoffUntil = s.hardBackoffUntil) ∧
    (∀ (rc : RunConfig) (s : StateData) (v : Int) (env : TickEnv),
        softCallCount (processThresholdStateMachine rc
          { s with
              currentState := ThresholdState.softThresholdActive
              softBackoffUntil := 0 } v env).2 = 0) ∧
    (∀ (rc : RunConfig) (s : StateData) (env : TickEnv),
        softCallCount (assumeBreachedStep rc
          { s with currentState := ThresholdState.softThresholdActive } env).2 = 0) ∧
    (∀ (rc : RunConfig) (s : StateData) (v : Int) (env : TickEnv),
        hardCallCount (processThresholdStateMachine rc
          { s with
              currentState := ThresholdState.hardThresholdActive
              hardBackoffUntil := 0 } v env).2 = 0) ∧
    (∀ (rc : RunConfig) (s : StateData) (env : TickEnv),
        hardCallCount (assumeBreachedStep rc
          { s with currentState := ThresholdState.hardThresholdActive } env).2 = 0) := by
  refine ⟨runTick_softBackoff_zero_delay, runTick_hardBackoff_zero_delay,
    runTrace_softBackoff_zero_delay, runTrace_hardBackoff_zero_delay,
    fun rc s v env => ?_, fun rc s env => ?_, fun rc s v env => ?_, fun rc s env => ?_⟩
  · show softCallCount (softActiveStep rc
      { s with
          currentState := ThresholdState.softThresholdActive
          softBackoffUntil := 0 } v env).2 = 0
    unfold softActiveStep
    split_ifs <;> simp [softReexecBlock_no_backoff]
  · rw [assumeBreachedStep, assumeSoftBlock_skip rc _ env (by simp)]
    simp
  · show hardCallCount (hardActiveStep rc
      { s with
          currentState := ThresholdState.hardThresholdActive
          hardBackoffUntil := 0 } v env).2 = 0
    unfold hardActiveStep
    split_ifs <;> simp [hardReexecBlock_no_backoff]
  · rw [assumeBreachedStep, assumeSoftBlock_skip rc _ env (by simp),
      assumeHardBlock_skip rc _ env (by simp)]
    simp

end MetricReader
